/-
  Verification of the XRP-Ledger-showcase transaction pipeline.

  Shallow embedding of the Rust sources:
    src/xrpl_http/client_service.rs      (balance_change, account_exists)
    src/xrpl_http/transaction_service.rs (create_trust_line, send_token_as_bytes)
    src/xrpl_http/types.rs               (SwapRequest::parse_issued_value, get_send_max)
    src/wallet.rs                        (trustline_exists, create_trust_line, swap_token)

  Network calls are made explicit: each service function takes an environment
  recording the results the ledger node would return, and returns
  `Option (Except String α)` (or a pair with a submission counter) where
  `none` models a Rust panic (an `.unwrap()` on an error/None) and
  `Except` models the `Result<_, String>` values of the source.
  Numeric amounts that the source handles through `f64` are modelled as
  exact rationals; every concrete value appearing in a theorem below is one
  on which `f64` shortest-decimal display agrees with the exact rendering.
-/
import Mathlib

deriving instance DecidableEq for Except

/-! ## Decimal-string parsing (bigdecimal::BigDecimal::from_str)

A `BigDecimal` is a pair (bigint, scale) denoting `bigint * 10 ^ (-scale)`.
`into_bigint_and_scale` exposes exactly that pair. -/

/-- Numeric value of a digit list (most significant first). -/
def digitsToNat (l : List Char) : Nat :=
  l.foldl (fun a c => a * 10 + (c.toNat - 48)) 0

/-- Split a char list at the first exponent marker `e`/`E`. -/
def splitAtE : List Char → List Char × Option (List Char)
  | [] => ([], none)
  | c :: cs =>
    if c == 'e' || c == 'E' then ([], some cs)
    else
      let p := splitAtE cs
      (c :: p.1, p.2)

/-- Split a char list at the first decimal point. -/
def splitDot : List Char → List Char × Option (List Char)
  | [] => ([], none)
  | c :: cs =>
    if c == '.' then ([], some cs)
    else
      let p := splitDot cs
      (c :: p.1, p.2)

/-- Parse the mantissa part `[+-]? digits [. digits]?` of a decimal literal,
returning the signed integer formed by all digits and the number of
fractional digits. -/
def parseDecMantissa (l : List Char) : Option (Int × Nat) :=
  let sr : Int × List Char :=
    match l with
    | '+' :: cs => (1, cs)
    | '-' :: cs => (-1, cs)
    | cs => (1, cs)
  let p := splitDot sr.2
  let frac := p.2.getD []
  let allDigits := p.1 ++ frac
  if allDigits.isEmpty then none
  else if allDigits.all Char.isDigit then
    some (sr.1 * (digitsToNat allDigits : Int), frac.length)
  else none

/-- Parse the exponent part `[+-]? digits` of a decimal literal. -/
def parseExpo (l : List Char) : Option Int :=
  let sr : Int × List Char :=
    match l with
    | '+' :: cs => (1, cs)
    | '-' :: cs => (-1, cs)
    | cs => (1, cs)
  if sr.2.isEmpty then none
  else if sr.2.all Char.isDigit then some (sr.1 * (digitsToNat sr.2 : Int))
  else none

/-- `BigDecimal::from_str` followed by `into_bigint_and_scale`:
the string `s` denotes `m * 10 ^ (-scale)`; returns `(m, scale)`,
`none` on a malformed literal. -/
def bigDecimalFromStr (s : String) : Option (Int × Int) :=
  let p := splitAtE s.toList
  match parseDecMantissa p.1 with
  | none => none
  | some (m, fracLen) =>
    match p.2 with
    | none => some (m, (fracLen : Int))
    | some ep =>
      match parseExpo ep with
      | none => none
      | some e => some (m, (fracLen : Int) - e)

/-- Rust `str::parse::<i64>()`: optional sign, decimal digits, i64 range. -/
def parseI64 (s : String) : Option Int :=
  let core : Int → List Char → Option Int := fun sign digits =>
    if digits.isEmpty then none
    else if digits.all Char.isDigit then
      let v : Int := sign * (digitsToNat digits : Int)
      if -(2 ^ 63) ≤ v ∧ v < 2 ^ 63 then some v else none
    else none
  match s.toList with
  | '+' :: cs => core 1 cs
  | '-' :: cs => core (-1) cs
  | cs => core 1 cs

/-- `BigInt::to_i64` (num ToPrimitive): succeeds exactly on the i64 range. -/
def toI64 (x : Int) : Option Int :=
  if -(2 ^ 63) ≤ x ∧ x < 2 ^ 63 then some x else none

/-- Rust `as i8` cast: wrap into `[-128, 127]`. -/
def i8Wrap (x : Int) : Int :=
  (x + 128).emod 256 - 128

/-- Truncating conversion of the BigDecimal `m * 10 ^ (-s)` to `u64`
(num ToPrimitive `to_u64`): truncate toward zero, then range-check. -/
def bigDecimalToU64 (m s : Int) : Option Nat :=
  let ip : Int :=
    if 0 ≤ s then Int.tdiv m ((10 : Int) ^ s.toNat)
    else m * (10 : Int) ^ (-s).toNat
  if 0 ≤ ip ∧ ip < 2 ^ 64 then some ip.toNat else none

/-! ## Exact decimal values and their display

The source routes settled-transaction amounts through `f64` (`size()`,
`/ 1000000.0`, `.to_string()`). All such values are decimal numbers; they
are modelled exactly as `num * 10 ^ (-scale)`, and display is the
shortest-decimal rendering, which agrees with Rust's float `to_string`
at every value exercised in the theorems below. -/

/-- Exact decimal number `num * 10 ^ (-scale)`. -/
structure Dec where
  num : Int
  scale : Nat
  deriving Repr, DecidableEq

/-- Division by `10 ^ k` (exact form of the source's `/ 1000000.0`). -/
def Dec.div10pow (x : Dec) (k : Nat) : Dec :=
  ⟨x.num, x.scale + k⟩

/-- Left-pad a digit list with zeros to length `k`. -/
def padLeftZeros (l : List Char) (k : Nat) : List Char :=
  List.replicate (k - l.length) '0' ++ l

/-- Drop trailing `'0'` characters. -/
def trimZeros (l : List Char) : List Char :=
  (l.reverse.dropWhile (· == '0')).reverse

/-- Shortest-decimal rendering of an exact decimal (Rust `to_string` of the
corresponding float, at the values exercised here). -/
def decToString (x : Dec) : String :=
  let sign := if x.num < 0 then "-" else ""
  let ds := padLeftZeros (toString x.num.natAbs).toList (x.scale + 1)
  let ip := ds.take (ds.length - x.scale)
  let fp := trimZeros (ds.drop (ds.length - x.scale))
  if fp.isEmpty then sign ++ String.mk ip
  else sign ++ String.mk ip ++ "." ++ String.mk fp

/-- Substring check on char lists (Rust `str::contains`). -/
def pfxMatch : List Char → List Char → Bool
  | [], _ => true
  | _ :: _, [] => false
  | a :: as, b :: bs => a == b && pfxMatch as bs

/-- Substring occurrence anywhere in the haystack. -/
def subOccurs (pat : List Char) : List Char → Bool
  | [] => pfxMatch pat []
  | c :: cs => pfxMatch pat (c :: cs) || subOccurs pat cs

/-- Rust `String::contains(pat)` for string patterns. -/
def strHasSub (s pat : String) : Bool :=
  subOccurs pat.toList s.toList

/-! ## xrpl_types issued values

`IssuedValue` and its constructors live in the external `xrpl_types` crate
(not under src/), so they are modelled from the spec. -/

/-- Protocol issued value `mantissa * 10 ^ exponent`. -/
structure IssuedValue where
  mantissa : Int
  exponent : Int
  deriving Repr, DecidableEq

/-- Scale the mantissa up by tens until its magnitude reaches `10^15`
(exact; the exponent is decremented per step). -/
def normUp : Nat → Int × Int → Int × Int
  | 0, p => p
  | fuel + 1, (m, e) =>
    if m.natAbs < 10 ^ 15 then normUp fuel (m * 10, e - 1) else (m, e)

/-- Scale the mantissa down by tens while its magnitude is at least `10^16`;
a step that would lose a nonzero digit fails (the spec forbids silent
truncation of issued amounts). -/
def normDown : Nat → Int × Int → Option (Int × Int)
  | 0, p => some p
  | fuel + 1, (m, e) =>
    if 10 ^ 16 ≤ m.natAbs then
      if m.emod 10 = 0 then normDown fuel (Int.tdiv m 10, e + 1)
      else none
    else some (m, e)

/-- Modelled from the spec: `IssuedValue::from_mantissa_exponent` of the
external `xrpl_types` crate (missing from src/). Normalizes the pair and
enforces the protocol invariant — zero, or mantissa magnitude in
`[10^15, 10^16)` with exponent in `[-96, 80]`; out-of-range input fails
rather than silently truncating. -/
def from_mantissa_exponent (mantissa exponent : Int) : Except String IssuedValue :=
  if mantissa = 0 then .ok ⟨0, 0⟩
  else
    match normDown 8 (normUp 20 (mantissa, exponent)) with
    | none => .error "invalid issued value: precision loss"
    | some (m, e) =>
      if 10 ^ 15 ≤ m.natAbs ∧ m.natAbs < 10 ^ 16 ∧ -96 ≤ e ∧ e ≤ 80 then
        .ok ⟨m, e⟩
      else .error "invalid issued value: out of range"

/-- Modelled from the spec: `DropsAmount::from_drops` of the external
`xrpl_types` crate — drops are capped at `10^17` (100 billion display units
times `10^6`). -/
def from_drops (d : Nat) : Except String Nat :=
  if d ≤ 10 ^ 17 then .ok d else .error "drops amount out of range"

/-- Wire amount of the `xrpl_types` crate: native drops or an issued value
with currency code and issuer address. -/
inductive WireAmount where
  | drops (d : Nat)
  | issued (v : IssuedValue) (currency issuer : String)
  deriving Repr, DecidableEq

/-! ## xrpl_http_client transaction records (read path) -/

/-- Amount as returned in settled-transaction records by the external
`xrpl_http_client` crate; `size()` returns its numeric value (modelled
exactly: a drop count, or the decimal value of an issued amount). -/
inductive RAmount where
  | drops (d : Nat)
  | issued (issuer : String) (value : Dec)
  deriving Repr, DecidableEq

/-- `Amount::size()` of `xrpl_http_client`: numeric value of the amount. -/
def RAmount.size : RAmount → Dec
  | .drops d => ⟨(d : Int), 0⟩
  | .issued _ v => v

/-- Transaction metadata block of a settled record. -/
structure TxMeta where
  delivered_amount : Option RAmount
  deriving Repr, DecidableEq

/-- Settled `Payment` record fields used by `balance_change`
(`payment_tx.common.*`, `send_max`, `amount`). -/
structure PaymentTx where
  account : String
  fee : String
  date : Option Nat
  meta : Option TxMeta
  send_max : Option RAmount
  amount : RAmount
  deriving Repr, DecidableEq

/-- Settled transaction variants distinguished by `balance_change`. -/
inductive Tx where
  | payment (p : PaymentTx)
  | otherTx
  deriving Repr, DecidableEq

/-- `TxResponse` of `xrpl_http_client`: the settled record. -/
structure TxResponse where
  tx : Tx
  deriving Repr, DecidableEq

/-- Result record of the fulfillment analysis (src/xrpl_http/types.rs). -/
structure FulfillmentDetails where
  amount_out : String
  token_out : String
  amount_in : String
  token_in : String
  fee : String
  tx_signer : String
  tx_timestamp : Nat
  deriving Repr, DecidableEq

/-- Account data relevant to this model (`account_data.sequence`). -/
structure AccountInfo where
  sequence : Nat
  deriving Repr, DecidableEq

/-! ## ClientService (src/xrpl_http/client_service.rs) -/

/-- `ClientService::balance_change` (client_service.rs:80-133), as a function
of the `inspect_tx` result. `none` models a panic: the source calls
`.unwrap()` on the `inspect_tx` result, on `common.meta`, on
`meta.delivered_amount` and on `send_max`. -/
def balance_change (inspectRes : Except String TxResponse) :
    Option (Except String FulfillmentDetails) :=
  match inspectRes with
  | .error _ => none
  | .ok resp =>
    match resp.tx with
    | .payment payment_tx =>
      match payment_tx.meta with
      | none => none
      | some m =>
        match m.delivered_amount with
        | none => none
        | some delivered =>
          match payment_tx.send_max with
          | none => none
          | some sm =>
            let amount_out := delivered.size
            let fee := payment_tx.fee
            let amount_in := sm.size
            let tIn : String × Dec :=
              match sm with
              | .drops _ => ("XRP", amount_in.div10pow 6)
              | .issued issuer _ => (issuer, amount_in)
            let tOut : String × Dec :=
              match payment_tx.amount with
              | .drops _ => ("XRP", amount_out.div10pow 6)
              | .issued issuer _ => (issuer, amount_out)
            let xrp_first_epoch_timestamp := 946684800
            let tx_timestamp :=
              match payment_tx.date with
              | some d => d + xrp_first_epoch_timestamp
              | none => xrp_first_epoch_timestamp
            some (.ok
              { amount_out := decToString tOut.2
                token_out := tOut.1
                amount_in := decToString tIn.2
                token_in := tIn.1
                fee := fee
                tx_signer := payment_tx.account
                tx_timestamp := tx_timestamp })
    | .otherTx => some (.error "Not a payment tx")

/-- `ClientService::account_exists` (client_service.rs:136-142), as a
function of the `get_account_info` result. -/
def account_exists (lookup : Except String AccountInfo) : Except String Bool :=
  match lookup with
  | .ok _ => .ok true
  | .error e => if strHasSub e "actNotFound" then .ok false else .error e

/-! ## SwapRequest amount conversion (src/xrpl_http/types.rs) -/

/-- Swap request as in types.rs (amounts kept as strings). -/
structure SwapRequest where
  token_in : String
  token_out : String
  amount_in : String
  amount_out_min : String
  deriving Repr, DecidableEq

/-- `SwapRequest::parse_issued_value` (types.rs:58-77): parse the decimal
string, take the bigint as i64 mantissa, negate the scale cast `as i8`
(a wrapping cast in the source) as exponent, and build the issued value. -/
def parse_issued_value (amount_str : String) : Except String IssuedValue :=
  match bigDecimalFromStr amount_str with
  | none => .error "Invalid amount format"
  | some (value_big_int, scale) =>
    match toI64 value_big_int with
    | none => .error "Amount too large for mantissa conversion"
    | some mantissa =>
      from_mantissa_exponent mantissa (i8Wrap (-(i8Wrap scale)))

/-- Network results consumed by the SwapRequest conversions:
`receive_currencies` per queried address, and validity of addresses and
currency codes (`AccountId::from_address`, `CurrencyCode::from_str`). -/
structure SwapEnv where
  currenciesOf : String → Except String (List String)
  validAddr : String → Bool
  validCurr : String → Bool

/-- `SwapRequest::get_send_max` (types.rs:124-165). Native branch:
parse `amount_in`, multiply by 1,000,000 (exact BigDecimal product
`(m, s) * (1000000, 0) = (m * 1000000, s)`), convert to u64 drops.
Issued branch: first listed receive currency, `parse_issued_value`. -/
def get_send_max (env : SwapEnv) (req : SwapRequest) : Except String WireAmount :=
  if req.token_in == "XRP" then
    match bigDecimalFromStr req.amount_in with
    | none => .error "Invalid XRP amount"
    | some (m, s) =>
      match bigDecimalToU64 (m * 1000000) s with
      | none => .error "Amount too large for drops conversion"
      | some drops_u64 =>
        match from_drops drops_u64 with
        | .error _ => .error "Invalid drops amount"
        | .ok d => .ok (.drops d)
  else
    match env.currenciesOf req.token_in with
    | .error e => .error e
    | .ok [] => .error ("No currencies found for token: " ++ req.token_in)
    | .ok (currency_code :: _) =>
      if ¬ env.validCurr currency_code then .error "Invalid currency code"
      else
        match parse_issued_value req.amount_in with
        | .error e => .error e
        | .ok issued_value =>
          if ¬ env.validAddr req.token_in then .error "Invalid token address"
          else .ok (.issued issued_value currency_code req.token_in)

/-! ## TransactionService (src/xrpl_http/transaction_service.rs)

The service's network interactions and signer are captured in an
environment; functions return `none` exactly where the source panics
through `.unwrap()`. The second component counts submissions actually
sent to the node (`client.call(SubmitRequest ...)`). -/

/-- Environment of a `TransactionService` call: the signer address, the
node's answers, and the signer account's existing trust lines (issuer
addresses from `account_lines`; recorded here to state idempotence claims —
`create_trust_line` never reads them). -/
structure TSEnv where
  signerAddress : String
  currenciesOf : String → Except String (List String)
  validAddr : String → Bool
  validCurr : String → Bool
  accountInfo : Except String AccountInfo
  prepareRes : Except String Unit
  signRes : Except String Unit
  serializeRes : Except String (List Nat)
  submitRes : Except String String
  trustLines : List String

/-- `TransactionService::create_trust_line` (transaction_service.rs:133-195).
Returns `none` on the source's panics: `limit_value.parse::<i64>().unwrap()`,
`IssuedValue::from_mantissa_exponent(..).unwrap()`, and
`client.prepare_transaction(..).unwrap()`. Second component: number of
TrustSet submissions sent. -/
def create_trust_line (env : TSEnv) (token_address : String)
    (limit : Option String) : Option (Except String String × Nat) :=
  match env.currenciesOf token_address with
  | .error e => some (.error e, 0)
  | .ok [] => some (.error "No currencies found for the given address", 0)
  | .ok (currency_code :: _) =>
    if ¬ env.validAddr env.signerAddress then
      some (.error "Invalid account address", 0)
    else
      match parseI64 (limit.getD "10000000") with
      | none => none
      | some limit_value =>
        match from_mantissa_exponent limit_value 0 with
        | .error _ => none
        | .ok _issued_value =>
          if ¬ env.validCurr currency_code then
            some (.error "Invalid currency code", 0)
          else if ¬ env.validAddr token_address then
            some (.error "Invalid token address", 0)
          else
            match env.accountInfo with
            | .error e => some (.error e, 0)
            | .ok _resp =>
              match env.prepareRes with
              | .error _ => none
              | .ok _ =>
                match env.signRes with
                | .error e => some (.error e, 0)
                | .ok _ =>
                  match env.serializeRes with
                  | .error e =>
                    some (.error ("Failed to serialize transaction: " ++ e), 0)
                  | .ok _tx_bytes =>
                    match env.submitRes with
                    | .error e =>
                      some (.error ("Failed to submit transaction: " ++ e), 1)
                    | .ok response => some (.ok response, 1)

/-- `TransactionService::send_token_as_bytes` (transaction_service.rs:52-97)
followed by `prepare_transaction` (rs:198-223). Returns `none` on the
source's panics: `AccountId::from_address(destination_address).unwrap()`,
`AccountId::from_address(token_address).unwrap()`, and
`client.prepare_transaction(..).unwrap()`. -/
def send_token_as_bytes (env : TSEnv) (token_address amount destination_address : String) :
    Option (Except String (List Nat)) :=
  if ¬ env.validAddr env.signerAddress then
    some (.error "Invalid account address")
  else if ¬ env.validAddr destination_address then none
  else
    match env.currenciesOf token_address with
    | .error e => some (.error e)
    | .ok [] => some (.error ("No currencies found for token: " ++ token_address))
    | .ok (currency_code :: _) =>
      if ¬ env.validCurr currency_code then some (.error "Invalid currency code")
      else
        match bigDecimalFromStr amount with
        | none => some (.error "Invalid amount format")
        | some (value_big_int, scale) =>
          match toI64 value_big_int with
          | none => some (.error "Amount too large for mantissa conversion")
          | some mantissa =>
            match from_mantissa_exponent mantissa (i8Wrap (-(i8Wrap scale))) with
            | .error e => some (.error ("Failed to create issued value: " ++ e))
            | .ok _issued_value =>
              if ¬ env.validAddr token_address then none
              else
                match env.accountInfo with
                | .error e => some (.error e)
                | .ok _resp =>
                  match env.prepareRes with
                  | .error _ => none
                  | .ok _ =>
                    match env.signRes with
                    | .error e => some (.error e)
                    | .ok _ =>
                      match env.serializeRes with
                      | .error e =>
                        some (.error ("Failed to serialize transaction: " ++ e))
                      | .ok tx_bytes => some (.ok tx_bytes)

/-! ## WalletService (src/wallet.rs) -/

/-- Token leg of a wallet swap (src/types/swap.rs); the BigDecimal amount is
carried as its decimal string (only ever used via `to_string()`). -/
structure TokenValue where
  address : String
  amount : String
  deriving Repr, DecidableEq

/-- Asset selector of a wallet swap (src/types/swap.rs). -/
inductive AssetType where
  | xrp (amount : String)
  | token (tv : TokenValue)
  deriving Repr, DecidableEq

/-- Wallet swap parameters (src/types/swap.rs). -/
structure SwapParams where
  token_in : AssetType
  token_out : AssetType
  token_in_min_amount : String
  token_out_min_amount : String
  deriving Repr, DecidableEq

/-- Environment of a `WalletService` call: account-lines and
account-currencies answers per queried address (the `account` field of each
line, resp. `receive_currencies`), the autofill/submit outcomes of the
TrustSet and of the Payment, and `xrp_to_drops` conversion. -/
structure WalletEnv where
  accountLinesOf : String → Except String (Option (List String))
  accountCurrenciesOf : String → Except String (Option (List String))
  trustSetAutofill : Except String Unit
  trustSetSubmit : Except String String
  xrpToDrops : String → Except String Nat
  paymentAutofill : Except String Unit
  paymentSubmit : Except String String

/-- `WalletService::trustline_exists` (wallet.rs:217-233): true iff some
line of `address` has `account == token_address`. -/
def trustline_exists (env : WalletEnv) (token_address address : String) :
    Except String Bool :=
  match env.accountLinesOf address with
  | .error e => .error ("Failed to get account lines: " ++ e)
  | .ok none => .ok false
  | .ok (some lines) => .ok (lines.contains token_address)

/-- `WalletService::create_trust_line` (wallet.rs:175-215): autofill, sign
and submit a TrustSet; second component counts TrustSet submissions. -/
def wallet_create_trust_line (env : WalletEnv) (_currency _issuer _limit : String) :
    Except String Unit × Nat :=
  match env.trustSetAutofill with
  | .error e => (.error ("Failed to autofill trust line: " ++ e), 0)
  | .ok _ =>
    match env.trustSetSubmit with
    | .error e => (.error ("Failed to submit trust line: " ++ e), 1)
    | .ok _ => (.ok (), 1)

/-- `WalletService::swap_token` (wallet.rs:235-314). For a token output leg,
checks `trustline_exists` and only creates a trust line when it is absent;
then submits the partial-payment Payment. `none` models the source's panic
`receive_currencies[0]` on an empty sequence. Second component counts
TrustSet submissions. -/
def swap_token (env : WalletEnv) (params : SwapParams) :
    Option (Except String Unit × Nat) :=
  let tsPart : Option (Except String Unit × Nat) :=
    match params.token_out with
    | .xrp _ => some (.ok (), 0)
    | .token token_val =>
      match trustline_exists env token_val.address token_val.address with
      | .error e => some (.error e, 0)
      | .ok true => some (.ok (), 0)
      | .ok false =>
        match env.accountCurrenciesOf token_val.address with
        | .error e => some (.error ("Failed to get account currencies: " ++ e), 0)
        | .ok none => some (.error "No account lines found", 0)
        | .ok (some []) => none
        | .ok (some (currency :: _)) =>
          match wallet_create_trust_line env currency token_val.address token_val.amount with
          | (.error e, n) => some (.error e, n)
          | (.ok _, n) => some (.ok (), n)
  match tsPart with
  | none => none
  | some (.error e, n) => some (.error e, n)
  | some (.ok _, n) =>
    match env.xrpToDrops params.token_in_min_amount with
    | .error e => some (.error ("Failed to convert XRP: " ++ e), n)
    | .ok _send_max =>
      match env.paymentAutofill with
      | .error e => some (.error ("Failed to autofill and sign: " ++ e), n)
      | .ok _ =>
        match env.paymentSubmit with
        | .error e => some (.error ("Failed to submit: " ++ e), n)
        | .ok _ => some (.ok (), n)

/-! ## Concrete environments used in witnesses and counterexamples -/

/-- A node where every call succeeds; the signer account already holds a
trust line toward issuer `rTOKEN`. -/
def envOk : TSEnv :=
  { signerAddress := "rSIGNER"
    currenciesOf := fun _ => .ok ["USD"]
    validAddr := fun _ => true
    validCurr := fun _ => true
    accountInfo := .ok ⟨7⟩
    prepareRes := .ok ()
    signRes := .ok ()
    serializeRes := .ok [18, 0]
    submitRes := .ok "tesSUCCESS"
    trustLines := ["rTOKEN"] }

/-- Same node, but address `rBAD` fails `AccountId::from_address`. -/
def envStrict : TSEnv :=
  { envOk with validAddr := fun a => a != "rBAD" }

/-- Node answering that the queried issuer defines no currencies. -/
def envEmpty : TSEnv :=
  { envOk with currenciesOf := fun _ => .ok [] }

/-- A wallet environment where every call succeeds and the queried account
already has a line toward `rTOKEN`. -/
def wEnvOk : WalletEnv :=
  { accountLinesOf := fun _ => .ok (some ["rTOKEN"])
    accountCurrenciesOf := fun _ => .ok (some ["USD"])
    trustSetAutofill := .ok ()
    trustSetSubmit := .ok "tesSUCCESS"
    xrpToDrops := fun _ => .ok 1000000
    paymentAutofill := .ok ()
    paymentSubmit := .ok "tesSUCCESS" }

/-- A swap environment with a well-behaved node. -/
def swapEnvEx : SwapEnv :=
  { currenciesOf := fun _ => .ok ["USD"]
    validAddr := fun _ => true
    validCurr := fun _ => true }

/-! ## Claim theorems -/

/-- C1, counterexample: a trust line toward `rTOKEN` already exists in the
environment, yet `TransactionService::create_trust_line` succeeds after
performing one TrustSet submission (the claim demands success with zero
submissions), so two identical calls perform two submissions, not one. -/
theorem create_trust_line_not_idempotent :
    envOk.trustLines.contains "rTOKEN" = true ∧
    create_trust_line envOk "rTOKEN" none = some (.ok "tesSUCCESS", 1) := by
  decide

/-- C1, amended: `TransactionService::create_trust_line` never consults
existing trust lines — every successful call performs exactly one TrustSet
submission; the idempotence check lives in `WalletService::swap_token`,
which queries `trustline_exists` and performs no TrustSet submission when a
matching line already exists. -/
theorem trust_line_submission_located :
    (∀ (env : TSEnv) (tok : String) (lim : Option String) (r : String) (n : Nat),
      create_trust_line env tok lim = some (.ok r, n) → n = 1) ∧
    (∀ (env : WalletEnv) (tv : TokenValue) (tin : AssetType) (amin amout : String),
      trustline_exists env tv.address tv.address = .ok true →
      ∃ r, swap_token env ⟨tin, .token tv, amin, amout⟩ = some (r, 0)) := by
  constructor
  · intro env tok lim r n h
    unfold create_trust_line at h
    repeat' split at h
    all_goals simp_all
  · intro env tv tin amin amout hex
    unfold swap_token
    simp only [hex]
    rcases env.xrpToDrops amin with e | d <;>
      rcases env.paymentAutofill with e2 | u <;>
        rcases env.paymentSubmit with e3 | r3 <;> exact ⟨_, rfl⟩

/-- C1, witness for the amended claim: one concrete successful direct call
submits exactly once, and one concrete swap over an existing line submits
no TrustSet. -/
theorem trust_line_submission_located_witness :
    (1 = 1) ∧
    ∃ r, swap_token wEnvOk ⟨.xrp "1", .token ⟨"rTOKEN", "5"⟩, "1", "4"⟩ =
      some (r, 0) :=
  ⟨trust_line_submission_located.1 envOk "rTOKEN" none "tesSUCCESS" 1 (by decide),
   trust_line_submission_located.2 wEnvOk ⟨"rTOKEN", "5"⟩ (.xrp "1") "1" "4" (by decide)⟩

/-- C2: a settled Payment record whose metadata block is absent — or whose
metadata lacks the delivered-amount field — makes `balance_change` panic
(the source unwraps `common.meta` and `meta.delivered_amount`), instead of
returning a MissingMetadata-style error as the spec requires. -/
theorem balance_change_missing_meta_panics :
    balance_change (.ok ⟨.payment
      { account := "rA", fee := "10", date := some 5, meta := none,
        send_max := some (.drops 10), amount := .drops 10 }⟩) = none ∧
    balance_change (.ok ⟨.payment
      { account := "rA", fee := "10", date := some 5,
        meta := some ⟨none⟩,
        send_max := some (.drops 10), amount := .drops 10 }⟩) = none := by
  decide

/-- C3: core operations panic on invalid input instead of returning a typed
error: `create_trust_line` with a non-numeric limit string panics on
`limit_value.parse::<i64>().unwrap()`, and `send_token_as_bytes` with an
invalid destination address panics on
`AccountId::from_address(destination_address).unwrap()`. -/
theorem invalid_input_panics :
    create_trust_line envOk "rTOKEN" (some "not-a-number") = none ∧
    send_token_as_bytes envStrict "rTOKEN" "1.5" "rBAD" = none := by
  decide

/-- C4, counterexample: for a drop-denominated leg the analysis reports the
sentinel `"XRP"`, not `"NATIVE"` as the claim states. -/
theorem balance_change_sentinel_is_XRP :
    balance_change (.ok ⟨.payment
      { account := "rA", fee := "12", date := some 3,
        meta := some ⟨some (.drops 500000)⟩,
        send_max := some (.drops 2000000), amount := .drops 1000000 }⟩) =
      some (.ok { amount_out := "0.5", token_out := "XRP", amount_in := "2",
                  token_in := "XRP", fee := "12", tx_signer := "rA",
                  tx_timestamp := 946684803 }) ∧
    "XRP" ≠ "NATIVE" := by
  decide

/-- C4, amended: for every analyzable Payment, `token_in` is the sentinel
`"XRP"` when `send_max` is drop-denominated and the issuer of the issued
leg otherwise, and `token_out` likewise follows the `amount` leg. -/
theorem balance_change_token_fields (acct fee : String) (d : Nat)
    (deliv sm am : RAmount) :
    ∃ dets, balance_change (.ok ⟨.payment
        { account := acct, fee := fee, date := some d,
          meta := some ⟨some deliv⟩, send_max := some sm, amount := am }⟩) =
        some (.ok dets) ∧
      dets.token_in = (match sm with
        | .drops _ => "XRP" | .issued issuer _ => issuer) ∧
      dets.token_out = (match am with
        | .drops _ => "XRP" | .issued issuer _ => issuer) := by
  cases sm <;> cases am <;> exact ⟨_, rfl, rfl, rfl⟩

/-- C5, counterexample: `"1e-200"` parses to bigint 1 with scale 200, whose
true exponent −200 is far below −96; yet `parse_issued_value` succeeds
(with the scale silently wrapped by the `as i8` cast: 200 becomes −56, so
the exponent becomes 56, normalized to 41) instead of failing. -/
theorem parse_issued_value_silent_wrap :
    bigDecimalFromStr "1e-200" = some (1, 200) ∧
    parse_issued_value "1e-200" = .ok ⟨1000000000000000, 41⟩ ∧
    ¬ ((-96 : Int) ≤ -200) := by
  decide

/-- Every `Except.ok` produced by `from_mantissa_exponent` satisfies the
protocol range invariant. -/
theorem from_mantissa_exponent_ok_range (m e : Int) (v : IssuedValue)
    (h : from_mantissa_exponent m e = .ok v) :
    v.mantissa.natAbs < 10 ^ 16 ∧ -96 ≤ v.exponent ∧ v.exponent ≤ 80 := by
  unfold from_mantissa_exponent at h
  split at h
  · cases h
    exact ⟨by norm_num, by norm_num, by norm_num⟩
  · split at h
    · exact absurd h (by simp)
    · split at h
      · cases h
        rename_i hg
        exact ⟨hg.2.1, hg.2.2.1, hg.2.2.2⟩
      · exact absurd h (by simp)

/-- C5, amended: every issued value accepted by `parse_issued_value` has
mantissa magnitude below `10^16` and exponent within `[-96, 80]`; however
the exponent derived from the decimal scale is narrowed by a wrapping
`as i8` cast, so an input whose scale exceeds the i8 range can succeed with
a wrapped exponent instead of failing. -/
theorem parse_issued_value_range_invariant (s : String) (v : IssuedValue)
    (h : parse_issued_value s = .ok v) :
    v.mantissa.natAbs < 10 ^ 16 ∧ -96 ≤ v.exponent ∧ v.exponent ≤ 80 := by
  unfold parse_issued_value at h
  repeat' split at h
  · exact absurd h (by simp)
  · exact absurd h (by simp)
  · exact from_mantissa_exponent_ok_range _ _ _ h

/-- C5, witness: the invariant holds of the value parsed from `"1.5"`. -/
theorem parse_issued_value_range_invariant_witness :
    (⟨1500000000000000, -15⟩ : IssuedValue).mantissa.natAbs < 10 ^ 16 ∧
    -96 ≤ (⟨1500000000000000, -15⟩ : IssuedValue).exponent ∧
    (⟨1500000000000000, -15⟩ : IssuedValue).exponent ≤ 80 :=
  parse_issued_value_range_invariant "1.5" ⟨1500000000000000, -15⟩ (by decide)

/-- C6: a Payment settling with `delivered_amount` of 900000 drops while the
nominal `amount` requested 1000000 drops is reported with
`amount_out = "0.9"` (delivered divided by 1,000,000), not `"1"`. -/
theorem balance_change_partial_payment_scenario :
    balance_change (.ok ⟨.payment
      { account := "rSIGNER", fee := "12", date := some 0,
        meta := some ⟨some (.drops 900000)⟩,
        send_max := some (.drops 1000000), amount := .drops 1000000 }⟩) =
      some (.ok { amount_out := "0.9", token_out := "XRP", amount_in := "1",
                  token_in := "XRP", fee := "12", tx_signer := "rSIGNER",
                  tx_timestamp := 946684800 }) := by
  decide

/-- C7: for every settled Payment carrying ledger close time `d`, the
analysis reports `tx_timestamp = d + 946684800` (so close time 0 maps to
Unix time 946684800). -/
theorem tx_timestamp_epoch_offset (acct fee : String) (d : Nat)
    (deliv sm am : RAmount) :
    ∃ dets, balance_change (.ok ⟨.payment
        { account := acct, fee := fee, date := some d,
          meta := some ⟨some deliv⟩, send_max := some sm, amount := am }⟩) =
        some (.ok dets) ∧
      dets.tx_timestamp = d + 946684800 := by
  cases sm <;> cases am <;> exact ⟨_, rfl, rfl⟩

/-- C8: whenever the decimal value of `amount_in` times 1,000,000 is exactly
the integer `d` (within the drops cap), the native conversion produces
exactly `d` drops. -/
theorem get_send_max_exact_drops (env : SwapEnv)
    (tout ain aomin : String) (m s : Int) (d : Nat)
    (hp : bigDecimalFromStr ain = some (m, s))
    (hs : 0 ≤ s)
    (he : m * 1000000 = (d : Int) * 10 ^ s.toNat)
    (hd : (d : Int) ≤ 10 ^ 17) :
    get_send_max env ⟨"XRP", tout, ain, aomin⟩ = .ok (.drops d) := by
  have hred : get_send_max env ⟨"XRP", tout, ain, aomin⟩ =
      (match bigDecimalFromStr ain with
       | none => .error "Invalid XRP amount"
       | some (m, s) =>
         match bigDecimalToU64 (m * 1000000) s with
         | none => .error "Amount too large for drops conversion"
         | some drops_u64 =>
           match from_drops drops_u64 with
           | .error _ => .error "Invalid drops amount"
           | .ok dd => .ok (.drops dd)) := rfl
  have hto : bigDecimalToU64 (m * 1000000) s = some d := by
    unfold bigDecimalToU64
    rw [if_pos hs, he, Int.mul_tdiv_cancel _ (by positivity)]
    rw [if_pos ⟨Int.ofNat_nonneg d, lt_of_le_of_lt hd (by norm_num)⟩]
    simp
  have hfd : from_drops d = .ok d := by
    unfold from_drops
    rw [if_pos (by exact_mod_cast hd)]
  rw [hred, hp]
  simp only [hto, hfd]

/-- C8, witness: `"46.27819"` converts to exactly 46278190 drops. -/
theorem get_send_max_exact_drops_witness :
    get_send_max swapEnvEx ⟨"XRP", "rTOK", "46.27819", "1"⟩ =
      .ok (.drops 46278190) :=
  get_send_max_exact_drops swapEnvEx "rTOK" "46.27819" "1"
    4627819 5 46278190 (by decide) (by decide) (by decide) (by decide)

/-- C9: when the issuer's issuable-currency query returns an empty sequence,
`create_trust_line` fails with the currency-unavailable error before
building, signing, or submitting anything (zero submissions). -/
theorem create_trust_line_empty_currencies (env : TSEnv) (tok : String)
    (lim : Option String) (h : env.currenciesOf tok = .ok []) :
    create_trust_line env tok lim =
      some (.error "No currencies found for the given address", 0) := by
  unfold create_trust_line
  rw [h]

/-- C9, witness: concrete empty-currencies environment. -/
theorem create_trust_line_empty_currencies_witness :
    create_trust_line envEmpty "rTOKEN" none =
      some (.error "No currencies found for the given address", 0) :=
  create_trust_line_empty_currencies envEmpty "rTOKEN" none rfl

/-- C10: `account_exists` returns `Ok true` exactly on lookup success,
`Ok false` exactly on a lookup error containing `"actNotFound"`, and
propagates every other lookup error unchanged. -/
theorem account_exists_spec :
    (∀ info, account_exists (.ok info) = .ok true) ∧
    (∀ e, strHasSub e "actNotFound" = true → account_exists (.error e) = .ok false) ∧
    (∀ e, strHasSub e "actNotFound" = false → account_exists (.error e) = .error e) := by
  refine ⟨fun _ => rfl, fun e h => ?_, fun e h => ?_⟩ <;>
    simp [account_exists, h]

/-- C10, witness: one lookup of each kind. -/
theorem account_exists_spec_witness :
    account_exists (.ok ⟨3⟩) = .ok true ∧
    account_exists (.error "Failed to get account info: actNotFound") = .ok false ∧
    account_exists (.error "Failed to get account info: timeout") =
      .error "Failed to get account info: timeout" :=
  ⟨account_exists_spec.1 ⟨3⟩,
   account_exists_spec.2.1 _ (by decide),
   account_exists_spec.2.2 _ (by decide)⟩
